import Mathlib

/-!
Verification of the VoiceInput module (src/VoiceInput.js).

The development shallowly embeds the two functional layers of the class:

* the silence detector set up inside startRecording (the closure
  checkForSilence driven by a 100 ms interval, arming a one-shot
  1500 ms timer that stops the recording), modelled as a pure state
  machine over the sequence of sampled frequency-bin arrays;

* the orchestration methods (startOrStopTranscription, stopRecording,
  processAudioBlob, transcribe), modelled as pure functions from an
  explicit instance state to a new state, a list of observable events
  (DOM writes, promise callback invocations, HTTP posts, emitted
  lifecycle events) and an Except-style result standing for normal
  return versus a thrown JS error.
-/

namespace VoiceInput

/-! ## Silence detector

Source (src/VoiceInput.js, startRecording):

    const checkForSilence = async () => {
      analyser.getByteFrequencyData(dataArray)
      const sum = dataArray.reduce((acc, val) => acc + val, 0)
      const average = sum / bufferLength
      if (average < 10) {
        if (!isSilent) {
          silenceTimer = setTimeout(() => { this.#stopRecording() }, 1500)
          isSilent = true
        }
      } else {
        clearTimeout(silenceTimer)
        isSilent = false
      }
    }
    const silenceDetectionInterval = setInterval(checkForSilence, 100)

A sampled frequency-bin array is a list of byte values; bufferLength is
its length.  The timer is modelled in ticks of the sampling interval:
arming stores a countdown of D ticks and the timer fires when the
countdown reaches zero without having been cleared, i.e. after D further
consecutive samples whose mean stayed below the threshold.
-/

/-- The arithmetic mean of the frequency-bin byte values:
`sum / bufferLength` where `bufferLength` is the array length. -/
def average (dataArray : List ℕ) : ℚ :=
  (dataArray.sum : ℚ) / (dataArray.length : ℚ)

/-- The closure state of the detector: the `isSilent` flag and the armed
one-shot timer (`none` when no timer is pending, `some n` when the timer
will fire after `n` further sampling ticks). -/
structure SilenceState where
  isSilent : Bool
  silenceTimer : Option ℕ
deriving DecidableEq, Repr

/-- One run of the `checkForSilence` callback on a sampled array:
below the threshold it arms the timer unless already silent; at or above
the threshold it clears any armed timer and resets the flag. -/
def checkForSilence (D : ℕ) (s : SilenceState) (dataArray : List ℕ) :
    SilenceState :=
  if average dataArray < 10 then
    if s.isSilent then s else SilenceState.mk true (some D)
  else SilenceState.mk false none

/-- One sampling tick: run `checkForSilence`, then let the sampling
interval elapse, counting the armed timer down; the second component
reports whether the timer fired (calling `stopRecording`). -/
def stepFire (D : ℕ) (s : SilenceState) (dataArray : List ℕ) :
    SilenceState × Bool :=
  match checkForSilence D s dataArray with
  | SilenceState.mk sil none => (SilenceState.mk sil none, false)
  | SilenceState.mk sil (some n) =>
    if n = 0 then (SilenceState.mk sil none, true)
    else (SilenceState.mk sil (some (n - 1)), false)

/-- Whether, over a sequence of sampled arrays, the silence timer ever
fires and auto-stops the capture. -/
def autoStops (D : ℕ) : SilenceState → List (List ℕ) → Bool
  | _, [] => false
  | s, d :: ds => (stepFire D s d).2 || autoStops D (stepFire D s d).1 ds

/-- The boolean form of the threshold test of `checkForSilence`. -/
def belowThreshold (dataArray : List ℕ) : Bool :=
  decide (average dataArray < 10)

/-- `allBelow n ds` holds when `ds` starts with at least `n` samples,
all of whose means are below the threshold. -/
def allBelow : ℕ → List (List ℕ) → Bool
  | 0, _ => true
  | _ + 1, [] => false
  | n + 1, d :: ds => belowThreshold d && allBelow n ds

/-! ## Orchestration state, events and errors

The instance fields of the class are gathered in `VoiceInputState`;
the observable effects of a method run (DOM writes, promise callback
invocations, HTTP posts, emitted lifecycle events) are recorded as a
list of `Ev`; a thrown JS error is an `Except.error` result. -/

/-- The state of the MediaRecorder handle: absent (before the first
session), in state recording, or in state inactive (after stop). -/
inductive RecState
  | noRecorder
  | recording
  | inactive
deriving DecidableEq, Repr

/-- A FormData object, as its list of appended key/value entries. -/
abbrev FormData := List (String × String)

/-- Observable events of a method run. -/
inductive Ev
  | emit (name : String)
  | fieldWrite (v : Option String)
  | fieldDisable (b : Bool)
  | resolveCall (v : Option String)
  | rejectCall (msg : String)
  | post (endpoint : String) (form : FormData)
  | trackStop
deriving DecidableEq, Repr

/-- A thrown JS error: a plain `new Error(msg)`, an error thrown by
axios (carrying the optional `response.data.error` of the server
response, absent on a network failure), or the TypeError raised by
invoking an undefined private callback field as a function. -/
inductive JsError
  | error (msg : String)
  | axiosError (respDataError : Option String)
  | typeError
deriving DecidableEq, Repr

/-- JS `x || fallback` on strings: the empty string is falsy. -/
def jsOr (m fallback : String) : String :=
  if m = "" then fallback else m

/-- JS `err?.message` (all modelled errors carry a message string). -/
def message : JsError → String
  | JsError.error m => m
  | JsError.axiosError _ => "Request failed"
  | JsError.typeError => "is not a function"

/-- JS `err?.response?.data?.error || 'API call error'`, the message
used by the catch block of `transcribe`. -/
def respDataErrorMsg : JsError → String
  | JsError.axiosError (some m) => jsOr m "API call error"
  | _ => "API call error"

/-- The instance fields of the class (plus the DOM value/disabled state
of the configured output input field, when one was configured). -/
structure VoiceInputState where
  endpoint : String
  language : String
  outputConfigured : Bool
  fieldValue : Option String
  fieldDisabled : Bool
  formData : FormData
  textTranscribed : Option String
  returnText : Bool
  resolveFn : Bool
  rejectFn : Bool
  recorderState : RecState
deriving DecidableEq, Repr

/-- The constructor: `new VoiceInput(outputInputField, language,
endpoint)`; `outputConfigured` records whether a non-empty output input
field was passed (the default is the empty string). -/
def mkVoiceInput (outputConfigured : Bool) (language endpoint : String) :
    VoiceInputState :=
  { endpoint := endpoint
    language := language
    outputConfigured := outputConfigured
    fieldValue := none
    fieldDisabled := false
    formData := []
    textTranscribed := none
    returnText := false
    resolveFn := false
    rejectFn := false
    recorderState := RecState.noRecorder }

/-- The default endpoint argument of the constructor. -/
def defaultEndpoint : String :=
  "http://139.59.254.243:3000/api/transcribe/whisperapi"

/-- `#isRecording()`: `this.#recorder && this.#recorder.state ===
'recording'`. -/
def isRecording (s : VoiceInputState) : Bool :=
  match s.recorderState with
  | RecState.recording => true
  | _ => false

/-- The result of a method run: the new state, the observable events in
order, and normal return versus a thrown error. -/
structure Outcome (α : Type) where
  state : VoiceInputState
  events : List Ev
  result : Except JsError α
deriving Repr

/-- The outcome of the server interaction behind one `axios.post`:
either the server responded (with a status, an optional `data.text` and
an optional `data.error`), or the request failed on the network. -/
inductive HttpOutcome
  | response (status : ℕ) (text : Option String) (errorField : Option String)
  | networkFailure
deriving DecidableEq, Repr

/-- `axios.post`: resolves with the response for a 2xx status, throws
an axios error otherwise (and on network failure). -/
def axiosPost : HttpOutcome → Except JsError (ℕ × Option String)
  | HttpOutcome.response st text errF =>
    if 200 ≤ st ∧ st < 300 then Except.ok (st, text)
    else Except.error (JsError.axiosError errF)
  | HttpOutcome.networkFailure =>
    Except.error (JsError.axiosError none)

/-- The tail of `transcribe` after the 200-branch: emit `isFinished`,
then re-enable the output field when it is in use. -/
def finishTranscribe (s : VoiceInputState) (evs : List Ev)
    (avail : Bool) : Outcome Unit :=
  let evs2 := evs ++ [Ev.emit "isFinished"]
  if avail then
    Outcome.mk { s with fieldDisabled := false }
      (evs2 ++ [Ev.fieldDisable false]) (Except.ok ())
  else Outcome.mk s evs2 (Except.ok ())

/-- The catch block of `transcribe`: in promise mode the error is routed
to `#rejectTranscription` (a TypeError escapes if that callback is
undefined); in DOM mode a fresh `Error` is thrown. -/
def transcribeCatch (s : VoiceInputState) (evs : List Ev)
    (e : JsError) : Outcome Unit :=
  if s.returnText then
    if s.rejectFn then
      Outcome.mk s (evs ++ [Ev.rejectCall (respDataErrorMsg e)])
        (Except.ok ())
    else Outcome.mk s evs (Except.error JsError.typeError)
  else
    Outcome.mk s evs
      (Except.error (JsError.error (respDataErrorMsg e)))

/-- `transcribe(formData)` (src/VoiceInput.js lines 271-317): computes
`isOutputFieldAvailable`, optionally overrides `#formData`, emits
`isLoading`, shows the loading placeholder, posts the form, and on a 200
response stores the text and delivers it to the output field or to the
pending promise; errors go through `transcribeCatch`. -/
def transcribe (s0 : VoiceInputState) (formDataArg : Option FormData)
    (http : HttpOutcome) : Outcome Unit :=
  let isOutputFieldAvailable := !s0.returnText && s0.outputConfigured
  let s1 := match formDataArg with
    | some fd => { s0 with formData := fd }
    | none => s0
  let evs1 := [Ev.emit "isLoading"]
  let s2 := if isOutputFieldAvailable then
      { s1 with fieldValue := some "Loading...", fieldDisabled := true }
    else s1
  let evs2 := if isOutputFieldAvailable then
      evs1 ++ [Ev.fieldWrite (some "Loading..."), Ev.fieldDisable true]
    else evs1
  let evs3 := evs2 ++ [Ev.post s2.endpoint s2.formData]
  match axiosPost http with
  | Except.error e => transcribeCatch s2 evs3 e
  | Except.ok (st, text) =>
    if st = 200 then
      let s3 := { s2 with textTranscribed := text }
      let s4 := if isOutputFieldAvailable then
          { s3 with fieldValue := text }
        else s3
      let evs4 := if isOutputFieldAvailable then
          evs3 ++ [Ev.fieldWrite text]
        else evs3
      if isOutputFieldAvailable then
        finishTranscribe s4 evs4 isOutputFieldAvailable
      else
        if s4.resolveFn then
          finishTranscribe s4
            (evs4 ++ [Ev.resolveCall s4.textTranscribed])
            isOutputFieldAvailable
        else transcribeCatch s4 evs4 JsError.typeError
    else finishTranscribe s2 evs3 isOutputFieldAvailable

/-- `#processAudioBlob(audioBlob)` (lines 249-260): builds a fresh
FormData with exactly the file and language entries, then delegates to
`transcribe`; its catch re-wraps a thrown error's message. -/
def processAudioBlob (s0 : VoiceInputState) (blob : String)
    (http : HttpOutcome) : Outcome Unit :=
  let s1 := { s0 with
    formData := [("file", blob), ("language", s0.language)] }
  let o := transcribe s1 none http
  match o.result with
  | Except.ok u => Outcome.mk o.state o.events (Except.ok u)
  | Except.error e =>
    Outcome.mk o.state o.events
      (Except.error (JsError.error
        (jsOr (message e) "Please say something the audio is too short.")))

/-- The `onstop` handler of the recorder (lines 192-197): clears the
silence-detection interval, disconnects the analyser source, and hands
the accumulated audio blob to `#processAudioBlob`.  It runs detached,
after the call that stopped the recorder has already returned. -/
def recorderOnStop (s : VoiceInputState) (blob : String)
    (http : HttpOutcome) : Outcome Unit :=
  processAudioBlob s blob http

/-- `#startRecording()` (lines 136-204): `getUserMedia` either rejects
(the error is logged and rethrown) or yields a stream; then a recorder
is created, `recordingStarted` is emitted, the silence detector is set
up and the recorder is started. -/
def startRecording (s0 : VoiceInputState)
    (getUserMediaError : Option String) : Outcome Unit :=
  match getUserMediaError with
  | some m => Outcome.mk s0 [] (Except.error (JsError.error m))
  | none =>
    Outcome.mk { s0 with recorderState := RecState.recording }
      [Ev.emit "recordingStarted"] (Except.ok ())

/-- The catch block of `#stopRecording`: reject in promise mode (a
TypeError escapes when the reject callback is undefined), throw a fresh
`Error` otherwise. -/
def stopCatch (s : VoiceInputState) (evs : List Ev) (e : JsError) :
    Outcome Unit :=
  if s.returnText then
    if s.rejectFn then
      Outcome.mk s (evs ++ [Ev.rejectCall (jsOr (message e) "Error Stopping")])
        (Except.ok ())
    else Outcome.mk s evs (Except.error JsError.typeError)
  else
    Outcome.mk s evs
      (Except.error (JsError.error (jsOr (message e) "Error Stopping")))

/-- `#stopRecording()` (lines 215-240): while recording it stops the
recorder and its tracks and emits `recordingStopped`; while idle it
resolves the pending promise with `null` in promise mode, and throws
`new Error(null)` (message `"null"`) in DOM mode, routed through the
catch block. -/
def stopRecording (s0 : VoiceInputState) : Outcome Unit :=
  if isRecording s0 then
    Outcome.mk { s0 with recorderState := RecState.inactive }
      [Ev.trackStop, Ev.emit "recordingStopped"] (Except.ok ())
  else if s0.returnText then
    if s0.resolveFn then
      Outcome.mk s0 [Ev.resolveCall none, Ev.emit "recordingStopped"]
        (Except.ok ())
    else stopCatch s0 [] JsError.typeError
  else stopCatch s0 [] (JsError.error "null")

/-- The value returned by `startOrStopTranscription`: the stored
`#textTranscribed` on the stop path, the pending promise on the start
path in promise mode, `undefined` on the start path in DOM mode. -/
inductive StartStopRet
  | stoppedText (t : Option String)
  | pendingPromise
  | noValue
deriving DecidableEq, Repr

/-- `startOrStopTranscription(returnText)` (lines 107-125): records the
delivery mode, stops when recording (returning the stored text),
otherwise starts and, in promise mode, installs the resolve/reject
callbacks of a fresh pending promise; its catch re-wraps a thrown
error's message. -/
def startOrStopTranscription (s0 : VoiceInputState) (returnText : Bool)
    (getUserMediaError : Option String) : Outcome StartStopRet :=
  let s1 := { s0 with returnText := returnText }
  if isRecording s1 then
    let o := stopRecording s1
    match o.result with
    | Except.ok _ =>
      Outcome.mk o.state o.events
        (Except.ok (StartStopRet.stoppedText o.state.textTranscribed))
    | Except.error e =>
      Outcome.mk o.state o.events
        (Except.error (JsError.error
          (jsOr (message e) "Error Starting or Stopping")))
  else
    let o := startRecording s1 getUserMediaError
    match o.result with
    | Except.error e =>
      Outcome.mk o.state o.events
        (Except.error (JsError.error
          (jsOr (message e) "Error Starting or Stopping")))
    | Except.ok _ =>
      if returnText then
        Outcome.mk { o.state with resolveFn := true, rejectFn := true }
          o.events (Except.ok StartStopRet.pendingPromise)
      else Outcome.mk o.state o.events (Except.ok StartStopRet.noValue)

/-- A full stop of an active session: the `startOrStopTranscription`
call that stops the recorder, paired with the detached `onstop` flow
that the stop triggered (which later submits the captured audio). -/
def stopFlow (s : VoiceInputState) (returnText : Bool) (blob : String)
    (http : HttpOutcome) : Outcome StartStopRet × Outcome Unit :=
  let o1 := startOrStopTranscription s returnText none
  (o1, recorderOnStop o1.state blob http)

/-- Event classifiers for stating the claims. -/
def isPost : Ev → Bool
  | Ev.post _ _ => true
  | _ => false

def isReject : Ev → Bool
  | Ev.rejectCall _ => true
  | _ => false

def isResolve : Ev → Bool
  | Ev.resolveCall _ => true
  | _ => false

def isFieldWrite : Ev → Bool
  | Ev.fieldWrite _ => true
  | _ => false

def postEvents (evs : List Ev) : List Ev := evs.filter isPost

def rejectEvents (evs : List Ev) : List Ev := evs.filter isReject

def resolveEvents (evs : List Ev) : List Ev := evs.filter isResolve

def writeEvents (evs : List Ev) : List Ev := evs.filter isFieldWrite

/-- The scenario of an instance constructed with no output field (the
empty-string default) used in DOM mode: start capture, stop it, then
the detached submission flow receiving a successful 200 response. -/
def domNoFieldScenario : Outcome Unit :=
  recorderOnStop
    (startOrStopTranscription
      (startOrStopTranscription (mkVoiceInput false "ja" defaultEndpoint)
        false none).state false none).state
    "blob" (HttpOutcome.response 200 (some "hello") none)

lemma autoStops_idle_cons (D : ℕ) (d : List ℕ) (ds : List (List ℕ)) :
    autoStops D (SilenceState.mk false none) (d :: ds) =
      if belowThreshold d then
        (if D = 0 then true
         else autoStops D (SilenceState.mk true (some (D - 1))) ds)
      else autoStops D (SilenceState.mk false none) ds := by
  by_cases hb : average d < 10
  · rcases D with _ | n <;>
      simp [autoStops, stepFire, checkForSilence, belowThreshold, hb]
  · simp [autoStops, stepFire, checkForSilence, belowThreshold, hb]

lemma autoStops_armed_cons (D k : ℕ) (d : List ℕ) (ds : List (List ℕ)) :
    autoStops D (SilenceState.mk true (some k)) (d :: ds) =
      if belowThreshold d then
        (if k = 0 then true
         else autoStops D (SilenceState.mk true (some (k - 1))) ds)
      else autoStops D (SilenceState.mk false none) ds := by
  by_cases hb : average d < 10
  · rcases k with _ | n <;>
      simp [autoStops, stepFire, checkForSilence, belowThreshold, hb]
  · simp [autoStops, stepFire, checkForSilence, belowThreshold, hb]

lemma autoStops_armed_mono (D : ℕ) :
    ∀ (ds : List (List ℕ)) (j m : ℕ), j ≤ m →
      autoStops D (SilenceState.mk true (some m)) ds = true →
      autoStops D (SilenceState.mk true (some j)) ds = true := by
  intro ds
  induction ds with
  | nil => intro j m _ h; simp [autoStops] at h
  | cons d ds ih =>
    intro j m hjm h
    rw [autoStops_armed_cons] at h ⊢
    by_cases hb : belowThreshold d = true
    · simp only [hb, if_true] at h ⊢
      rcases Nat.eq_zero_or_pos j with hj | hj
      · subst hj; simp
      · have hj0 : j ≠ 0 := by omega
        have hm0 : m ≠ 0 := by omega
        simp only [hj0, hm0, if_false] at h ⊢
        exact ih (j - 1) (m - 1) (by omega) h
    · simp only [Bool.not_eq_true] at hb
      simp only [hb, Bool.false_eq_true, if_false] at h ⊢
      exact h

lemma autoStops_idle_mono (D : ℕ) (ds : List (List ℕ)) (j : ℕ)
    (hj : j + 1 ≤ D)
    (h : autoStops D (SilenceState.mk false none) ds = true) :
    autoStops D (SilenceState.mk true (some j)) ds = true := by
  cases ds with
  | nil => simp [autoStops] at h
  | cons d ds =>
    rw [autoStops_idle_cons] at h
    rw [autoStops_armed_cons]
    by_cases hb : belowThreshold d = true
    · have hD : D ≠ 0 := by omega
      simp only [hb, if_true, hD, if_false] at h
      simp only [hb, if_true]
      rcases Nat.eq_zero_or_pos j with hj0 | hj0
      · subst hj0; simp
      · have hj1 : j ≠ 0 := by omega
        simp only [hj1, if_false]
        exact autoStops_armed_mono D ds (j - 1) (D - 1) (by omega) h
    · simp only [Bool.not_eq_true] at hb
      simp only [hb, Bool.false_eq_true, if_false] at h ⊢
      exact h

lemma allBelow_armed (D : ℕ) :
    ∀ (k : ℕ) (ds : List (List ℕ)), allBelow (k + 1) ds = true →
      autoStops D (SilenceState.mk true (some k)) ds = true := by
  intro k
  induction k with
  | zero =>
    intro ds h
    cases ds with
    | nil => simp [allBelow] at h
    | cons d ds =>
      simp only [allBelow, Bool.and_eq_true] at h
      rw [autoStops_armed_cons]
      simp [h.1]
  | succ k ih =>
    intro ds h
    cases ds with
    | nil => simp [allBelow] at h
    | cons d ds =>
      simp only [allBelow, Bool.and_eq_true] at h
      rw [autoStops_armed_cons]
      simp only [h.1, if_true, Nat.succ_ne_zero, if_false,
        Nat.add_sub_cancel]
      exact ih ds h.2

lemma autoStops_complete (D : ℕ) :
    ∀ (ds : List (List ℕ)) (i : ℕ),
      allBelow (D + 1) (ds.drop i) = true →
      autoStops D (SilenceState.mk false none) ds = true := by
  intro ds
  induction ds with
  | nil => intro i h; simp [List.drop_nil, allBelow] at h
  | cons d ds ih =>
    intro i h
    rw [autoStops_idle_cons]
    cases i with
    | zero =>
      simp only [List.drop_zero, allBelow, Bool.and_eq_true] at h
      simp only [h.1, if_true]
      rcases D with _ | n
      · simp
      · simp only [Nat.succ_ne_zero, if_false, Nat.add_sub_cancel]
        exact allBelow_armed _ n ds h.2
    | succ i =>
      have h' : allBelow (D + 1) (ds.drop i) = true := by
        simpa using h
      have hds := ih i h'
      by_cases hb : belowThreshold d = true
      · simp only [hb, if_true]
        rcases D with _ | n
        · simp
        · simp only [Nat.succ_ne_zero, if_false, Nat.add_sub_cancel]
          exact autoStops_idle_mono _ ds n (by omega) hds
      · simp only [Bool.not_eq_true] at hb
        simp only [hb, Bool.false_eq_true, if_false]
        exact hds

lemma autoStops_sound (D : ℕ) :
    ∀ (ds : List (List ℕ)),
      (autoStops D (SilenceState.mk false none) ds = true →
        ∃ i, allBelow (D + 1) (ds.drop i) = true) ∧
      (∀ k, autoStops D (SilenceState.mk true (some k)) ds = true →
        allBelow (k + 1) ds = true ∨
          ∃ i, allBelow (D + 1) (ds.drop i) = true) := by
  intro ds
  induction ds with
  | nil =>
    constructor
    · intro h; simp [autoStops] at h
    · intro k h; simp [autoStops] at h
  | cons d ds ih =>
    obtain ⟨ih1, ih2⟩ := ih
    constructor
    · intro h
      rw [autoStops_idle_cons] at h
      by_cases hb : belowThreshold d = true
      · simp only [hb, if_true] at h
        rcases D with _ | n
        · exact ⟨0, by simp [allBelow, hb]⟩
        · simp only [Nat.succ_ne_zero, if_false, Nat.add_sub_cancel] at h
          rcases ih2 n h with h1 | ⟨i, hi⟩
          · exact ⟨0, by simp [allBelow, hb, h1]⟩
          · exact ⟨i + 1, by simpa using hi⟩
      · simp only [Bool.not_eq_true] at hb
        simp only [hb, Bool.false_eq_true, if_false] at h
        rcases ih1 h with ⟨i, hi⟩
        exact ⟨i + 1, by simpa using hi⟩
    · intro k h
      rw [autoStops_armed_cons] at h
      by_cases hb : belowThreshold d = true
      · simp only [hb, if_true] at h
        rcases k with _ | k
        · left; simp [allBelow, hb]
        · simp only [Nat.succ_ne_zero, if_false, Nat.add_sub_cancel] at h
          rcases ih2 k h with h1 | ⟨i, hi⟩
          · left; simp [allBelow, hb, h1]
          · right; exact ⟨i + 1, by simpa using hi⟩
      · simp only [Bool.not_eq_true] at hb
        simp only [hb, Bool.false_eq_true, if_false] at h
        rcases ih1 h with ⟨i, hi⟩
        right; exact ⟨i + 1, by simpa using hi⟩

/-! ## Helper lemmas for the orchestration layer -/

lemma isRecording_returnText (s : VoiceInputState) (rt : Bool) :
    isRecording { s with returnText := rt } = isRecording s := rfl

lemma postEvents_append (a b : List Ev) :
    postEvents (a ++ b) = postEvents a ++ postEvents b := by
  simp [postEvents, List.filter_append]

lemma axiosPost_200 (text : Option String) (ef : Option String) :
    axiosPost (HttpOutcome.response 200 text ef) = Except.ok (200, text) := by
  simp [axiosPost]

lemma transcribe_200_text (s : VoiceInputState) (fd : Option FormData)
    (t : String) (ef : Option String) :
    (transcribe s fd (HttpOutcome.response 200 (some t) ef)).state.textTranscribed
      = some t := by
  cases hfd : fd <;> cases hrt : s.returnText <;>
    cases hoc : s.outputConfigured <;> cases hrf : s.resolveFn <;>
    cases hrj : s.rejectFn <;>
    simp [transcribe, axiosPost_200, finishTranscribe, transcribeCatch,
      hrt, hoc, hrf, hrj]

lemma transcribe_postEvents (s : VoiceInputState) (http : HttpOutcome) :
    postEvents (transcribe s none http).events =
      [Ev.post s.endpoint s.formData] := by
  cases hax : axiosPost http with
  | error e =>
    cases hrt : s.returnText <;> cases hoc : s.outputConfigured <;>
      cases hrf : s.rejectFn <;>
      simp [transcribe, hax, transcribeCatch, finishTranscribe,
        postEvents, isPost, hrt, hoc, hrf]
  | ok p =>
    obtain ⟨st, text⟩ := p
    by_cases hst : st = 200 <;>
      cases hrt : s.returnText <;> cases hoc : s.outputConfigured <;>
        cases hrf : s.resolveFn <;> cases hrj : s.rejectFn <;>
        simp [transcribe, hax, transcribeCatch, finishTranscribe,
          postEvents, isPost, hrt, hoc, hrf, hrj, hst]

lemma processAudioBlob_postEvents (s : VoiceInputState) (blob : String)
    (http : HttpOutcome) :
    postEvents (processAudioBlob s blob http).events =
      [Ev.post s.endpoint [("file", blob), ("language", s.language)]] := by
  have h := transcribe_postEvents
    { s with formData := [("file", blob), ("language", s.language)] } http
  rcases hE : transcribe
      { s with formData := [("file", blob), ("language", s.language)] }
      none http with ⟨st, evs, r⟩
  rw [hE] at h
  cases r <;> simp [processAudioBlob, hE] <;> simpa using h

lemma processAudioBlob_textTranscribed (s : VoiceInputState)
    (blob t : String) (ef : Option String) :
    (processAudioBlob s blob
        (HttpOutcome.response 200 (some t) ef)).state.textTranscribed =
      some t := by
  have h := transcribe_200_text
    { s with formData := [("file", blob), ("language", s.language)] }
    none t ef
  rcases hE : transcribe
      { s with formData := [("file", blob), ("language", s.language)] }
      none (HttpOutcome.response 200 (some t) ef) with ⟨st, evs, r⟩
  rw [hE] at h
  cases r <;> simp [processAudioBlob, hE] <;> simpa using h

lemma startOrStop_stop_eq (s : VoiceInputState) (rt : Bool)
    (perm : Option String) (h : isRecording s = true) :
    startOrStopTranscription s rt perm =
      Outcome.mk
        { s with returnText := rt, recorderState := RecState.inactive }
        [Ev.trackStop, Ev.emit "recordingStopped"]
        (Except.ok (StartStopRet.stoppedText s.textTranscribed)) := by
  simp [startOrStopTranscription, stopRecording, isRecording_returnText, h]

lemma stopFlow_postEvents (s : VoiceInputState) (rt : Bool)
    (blob : String) (http : HttpOutcome) (h : isRecording s = true) :
    postEvents ((stopFlow s rt blob http).1.events ++
        (stopFlow s rt blob http).2.events) =
      [Ev.post s.endpoint [("file", blob), ("language", s.language)]] := by
  simp only [stopFlow, recorderOnStop, startOrStop_stop_eq s rt none h,
    postEvents_append, processAudioBlob_postEvents]
  simp [postEvents, isPost]

/-! ## Claim C1 -/

/-- Claim C1: every sample of the periodic silence check computes the
arithmetic mean of the frequency-bin byte values (`average`); below the
threshold 10 with the detector not already silent it arms the one-shot
stop timer, at or above the threshold it cancels any armed timer and
leaves the silent state, and over a sampled run the capture is
auto-stopped iff the mean stays below the threshold for the full timer
duration (`D` sampling ticks, i.e. `D + 1` consecutive quiet samples). -/
theorem c1_silence_detector (D : ℕ) (samples : List (List ℕ)) :
    (∀ (s : SilenceState) (dataArray : List ℕ),
        average dataArray < 10 → s.isSilent = false →
        checkForSilence D s dataArray = SilenceState.mk true (some D)) ∧
    (∀ (s : SilenceState) (dataArray : List ℕ),
        ¬ average dataArray < 10 →
        checkForSilence D s dataArray = SilenceState.mk false none) ∧
    (autoStops D (SilenceState.mk false none) samples = true ↔
      ∃ i, allBelow (D + 1) (samples.drop i) = true) := by
  refine ⟨?_, ?_, ?_⟩
  · intro s dataArray hlt hsil
    simp [checkForSilence, hlt, hsil]
  · intro s dataArray hge
    simp [checkForSilence, hge]
  · constructor
    · exact (autoStops_sound D samples).1
    · rintro ⟨i, hi⟩
      exact autoStops_complete D samples i hi

theorem c1_silence_detector_witness :
    checkForSilence 15 (SilenceState.mk false none) [0, 0] =
        SilenceState.mk true (some 15) ∧
    (autoStops 1 (SilenceState.mk false none) [[0], [0]] = true ↔
      ∃ i, allBelow 2 (List.drop i [[0], [0]]) = true) :=
  ⟨(c1_silence_detector 15 []).1 (SilenceState.mk false none) [0, 0]
      (by norm_num [average]) rfl,
    (c1_silence_detector 1 [[0], [0]]).2.2⟩

/-! ## Claim C2 -/

/-- Claim C2 is false as stated: with the promise delivery mode
requested (returnText true), a capture-permission failure is thrown to
the caller of `startOrStopTranscription` and the reject callback is
never invoked, because the pending promise and its callbacks are only
installed after capture has started. -/
theorem c2_counterexample :
    (startOrStopTranscription (mkVoiceInput true "ja" defaultEndpoint)
        true (some "Permission denied")).result =
      Except.error (JsError.error "Permission denied") ∧
    rejectEvents (startOrStopTranscription
        (mkVoiceInput true "ja" defaultEndpoint)
        true (some "Permission denied")).events = [] := by
  constructor <;> rfl

/-- Claim C2 (amended): every failure is wrapped into a generic `Error`
with a best-effort message; transcription failures (the HTTP client
rejecting) follow the chosen delivery mode, thrown within the
submission flow in DOM mode or routed to the pending reject callback in
promise mode, and an idle stop in DOM mode throws; but a
capture-permission failure during start is thrown to the caller of
`startOrStopTranscription` in both modes, the pending promise not yet
existing. -/
theorem c2_error_routing (s : VoiceInputState) (rt : Bool) (m : String)
    (http : HttpOutcome) (e : JsError)
    (hrec : isRecording s = false)
    (hax : axiosPost http = Except.error e) :
    ((startOrStopTranscription s rt (some m)).result =
        Except.error
          (JsError.error (jsOr m "Error Starting or Stopping")) ∧
      rejectEvents (startOrStopTranscription s rt (some m)).events = []) ∧
    (s.returnText = false →
      (transcribe s none http).result =
        Except.error (JsError.error (respDataErrorMsg e))) ∧
    (s.returnText = true → s.rejectFn = true →
      rejectEvents (transcribe s none http).events =
        [Ev.rejectCall (respDataErrorMsg e)]) ∧
    (s.returnText = false →
      (stopRecording s).result =
        Except.error (JsError.error "null")) := by
  refine ⟨⟨?_, ?_⟩, ?_, ?_, ?_⟩
  · simp [startOrStopTranscription, startRecording,
      isRecording_returnText, hrec, message]
  · simp [startOrStopTranscription, startRecording,
      isRecording_returnText, hrec, rejectEvents]
  · intro hrt
    cases hoc : s.outputConfigured <;>
      simp [transcribe, hax, transcribeCatch, hrt, hoc]
  · intro hrt hrj
    cases hoc : s.outputConfigured <;>
      simp [transcribe, hax, transcribeCatch, hrt, hrj, hoc,
        rejectEvents, isReject]
  · intro hrt
    simp [stopRecording, stopCatch, hrec, hrt, message, jsOr]

theorem c2_error_routing_witness :
    (startOrStopTranscription (mkVoiceInput true "ja" defaultEndpoint)
        false (some "Permission denied")).result =
      Except.error
        (JsError.error
          (jsOr "Permission denied" "Error Starting or Stopping")) :=
  (c2_error_routing (mkVoiceInput true "ja" defaultEndpoint) false
      "Permission denied" HttpOutcome.networkFailure
      (JsError.axiosError none) rfl rfl).1.1

/-! ## Claim C3 -/

/-- Claim C3 is false as stated: a 204 response has a non-200 status,
yet `transcribe` surfaces no error at all: the HTTP client resolves any
2xx status, the code only acts on exactly 200, so the call returns
normally and invokes no reject callback. -/
theorem c3_counterexample :
    (transcribe (mkVoiceInput true "ja" defaultEndpoint) none
        (HttpOutcome.response 204 none none)).result = Except.ok () ∧
    rejectEvents (transcribe (mkVoiceInput true "ja" defaultEndpoint)
        none (HttpOutcome.response 204 none none)).events = [] := by
  constructor <;> rfl

/-- Claim C3 (amended): for every submission whose response makes the
HTTP client reject (non-2xx status or network failure), the output
field is only ever written with the loading placeholder, never with
transcribed text, and an error is surfaced per the delivery mode
(thrown from the transcribe step in DOM mode, routed to the pending
reject callback in promise mode); a 2xx response with status other than
200 writes no text but surfaces no error either. -/
theorem c3_failure_no_write (s : VoiceInputState) (http : HttpOutcome)
    (e : JsError) (hax : axiosPost http = Except.error e) :
    (writeEvents (transcribe s none http).events =
      if !s.returnText && s.outputConfigured then
        [Ev.fieldWrite (some "Loading...")]
      else []) ∧
    (s.returnText = false →
      (transcribe s none http).result =
        Except.error (JsError.error (respDataErrorMsg e))) ∧
    (s.returnText = true → s.rejectFn = true →
      rejectEvents (transcribe s none http).events =
        [Ev.rejectCall (respDataErrorMsg e)]) := by
  refine ⟨?_, ?_, ?_⟩
  · cases hrt : s.returnText <;> cases hoc : s.outputConfigured <;>
      cases hrj : s.rejectFn <;>
      simp [transcribe, hax, transcribeCatch, hrt, hoc, hrj,
        writeEvents, isFieldWrite]
  · intro hrt
    cases hoc : s.outputConfigured <;>
      simp [transcribe, hax, transcribeCatch, hrt, hoc]
  · intro hrt hrj
    cases hoc : s.outputConfigured <;>
      simp [transcribe, hax, transcribeCatch, hrt, hrj, hoc,
        rejectEvents, isReject]

theorem c3_failure_no_write_witness :
    (transcribe (mkVoiceInput true "ja" defaultEndpoint) none
        HttpOutcome.networkFailure).result =
      Except.error
        (JsError.error (respDataErrorMsg (JsError.axiosError none))) :=
  (c3_failure_no_write (mkVoiceInput true "ja" defaultEndpoint)
      HttpOutcome.networkFailure (JsError.axiosError none) rfl).2.1 rfl

/-! ## Claim C4 -/

/-- Claim C4: stopping while no capture session is active resolves the
pending promise with null (an empty result) rather than throwing, and
only in promise mode; in DOM mode an idle stop throws and resolves
nothing. -/
theorem c4_idle_stop (s : VoiceInputState) (h : isRecording s = false) :
    (s.returnText = true → s.resolveFn = true →
      stopRecording s =
        Outcome.mk s [Ev.resolveCall none, Ev.emit "recordingStopped"]
          (Except.ok ())) ∧
    (s.returnText = false →
      (stopRecording s).result = Except.error (JsError.error "null") ∧
      resolveEvents (stopRecording s).events = []) := by
  constructor
  · intro hrt hrf
    simp [stopRecording, h, hrt, hrf]
  · intro hrt
    simp [stopRecording, stopCatch, h, hrt, message, jsOr,
      resolveEvents]

theorem c4_idle_stop_witness :
    stopRecording { mkVoiceInput true "ja" defaultEndpoint with
        returnText := true, resolveFn := true } =
      Outcome.mk { mkVoiceInput true "ja" defaultEndpoint with
          returnText := true, resolveFn := true }
        [Ev.resolveCall none, Ev.emit "recordingStopped"]
        (Except.ok ()) :=
  (c4_idle_stop { mkVoiceInput true "ja" defaultEndpoint with
      returnText := true, resolveFn := true } rfl).1 rfl rfl

/-! ## Claim C5 -/

/-- Claim C5: on a 200 response in DOM mode with a configured output
field, the field sees exactly two writes, the loading placeholder and
then the transcribed text of the response body, so the transcribed text
(when it does not coincide with the placeholder string) is written
exactly once, with no duplicate write. -/
theorem c5_success_write_once (s : VoiceInputState) (t : String)
    (ef : Option String) (h1 : s.returnText = false)
    (h2 : s.outputConfigured = true) :
    writeEvents (transcribe s none
        (HttpOutcome.response 200 (some t) ef)).events =
      [Ev.fieldWrite (some "Loading..."), Ev.fieldWrite (some t)] ∧
    (t ≠ "Loading..." →
      (transcribe s none
          (HttpOutcome.response 200 (some t) ef)).events.count
        (Ev.fieldWrite (some t)) = 1) := by
  constructor
  · simp [transcribe, axiosPost_200, finishTranscribe, h1, h2,
      writeEvents, isFieldWrite]
  · intro ht
    have ht2 : ¬ (("Loading..." : String) = t) := fun hh => ht hh.symm
    simp [transcribe, axiosPost_200, finishTranscribe, h1, h2,
      List.count_cons, ht, ht2]

theorem c5_success_write_once_witness :
    writeEvents (transcribe (mkVoiceInput true "ja" defaultEndpoint)
        none (HttpOutcome.response 200 (some "hello") none)).events =
      [Ev.fieldWrite (some "Loading..."), Ev.fieldWrite (some "hello")] :=
  (c5_success_write_once (mkVoiceInput true "ja" defaultEndpoint)
      "hello" none rfl rfl).1

/-! ## Claim C6 -/

/-- Claim C6: a stop of an active recording session produces exactly
one submission attempt: the stopping call itself posts nothing, and the
detached onstop flow it triggers performs exactly one POST of the
captured audio, whatever the response then is. -/
theorem c6_exactly_one_post (s : VoiceInputState) (rt : Bool)
    (blob : String) (http : HttpOutcome) (h : isRecording s = true) :
    (postEvents ((stopFlow s rt blob http).1.events ++
        (stopFlow s rt blob http).2.events)).length = 1 ∧
    postEvents (stopFlow s rt blob http).1.events = [] := by
  constructor
  · rw [stopFlow_postEvents s rt blob http h]
    rfl
  · simp only [stopFlow, startOrStop_stop_eq s rt none h]
    simp [postEvents, isPost]

theorem c6_exactly_one_post_witness :
    (postEvents (((stopFlow { mkVoiceInput true "ja" defaultEndpoint
          with recorderState := RecState.recording } false "blob"
          HttpOutcome.networkFailure).1.events ++
        (stopFlow { mkVoiceInput true "ja" defaultEndpoint
          with recorderState := RecState.recording } false "blob"
          HttpOutcome.networkFailure).2.events))).length = 1 :=
  (c6_exactly_one_post { mkVoiceInput true "ja" defaultEndpoint
      with recorderState := RecState.recording } false "blob"
      HttpOutcome.networkFailure rfl).1

/-! ## Claim C7 -/

/-- Claim C7: `startOrStopTranscription` is a toggle keeping at most
one capture session per instance: called while idle (with capture
permission granted) it moves the instance to the recording state;
called while recording it stops that session, the recorder becoming
inactive, instead of starting a second one (no `recordingStarted` is
emitted on the stop path). -/
theorem c7_toggle (s : VoiceInputState) (rt : Bool)
    (perm : Option String) :
    (isRecording s = false → perm = none →
      (startOrStopTranscription s rt perm).state.recorderState =
        RecState.recording) ∧
    (isRecording s = true →
      (startOrStopTranscription s rt perm).state.recorderState =
        RecState.inactive ∧
      Ev.emit "recordingStarted" ∉
        (startOrStopTranscription s rt perm).events) := by
  constructor
  · intro h hperm
    subst hperm
    cases rt <;>
      simp [startOrStopTranscription, startRecording,
        isRecording_returnText, h]
  · intro h
    rw [startOrStop_stop_eq s rt perm h]
    simp

theorem c7_toggle_witness :
    (startOrStopTranscription (mkVoiceInput true "ja" defaultEndpoint)
        false none).state.recorderState = RecState.recording :=
  (c7_toggle (mkVoiceInput true "ja" defaultEndpoint) false none).1
    rfl rfl

/-! ## Claim C8 -/

/-- Claim C8: the submission of a completed capture session is one POST
to the configured endpoint URL whose form data contains exactly two
entries, the captured audio blob under the key `file` and the
configured language code under the key `language`. -/
theorem c8_form_data (s : VoiceInputState) (rt : Bool) (blob : String)
    (http : HttpOutcome) (h : isRecording s = true) :
    postEvents ((stopFlow s rt blob http).1.events ++
        (stopFlow s rt blob http).2.events) =
      [Ev.post s.endpoint [("file", blob), ("language", s.language)]] :=
  stopFlow_postEvents s rt blob http h

theorem c8_form_data_witness :
    postEvents ((stopFlow { mkVoiceInput true "ja" defaultEndpoint
          with recorderState := RecState.recording } false "blob"
          HttpOutcome.networkFailure).1.events ++
        (stopFlow { mkVoiceInput true "ja" defaultEndpoint
          with recorderState := RecState.recording } false "blob"
          HttpOutcome.networkFailure).2.events) =
      [Ev.post defaultEndpoint [("file", "blob"), ("language", "ja")]] :=
  c8_form_data { mkVoiceInput true "ja" defaultEndpoint
      with recorderState := RecState.recording } false "blob"
      HttpOutcome.networkFailure rfl

/-! ## Claim C9 -/

/-- Claim C9: a `startOrStopTranscription` call that stops an active
recording returns the stored transcribed text as it was before this
session's submission completes (the previous session's text, or
undefined if none): the new text reaches the instance state only in the
detached onstop flow, after the call has returned. -/
theorem c9_stop_returns_previous_text (s : VoiceInputState) (rt : Bool)
    (blob t : String) (h : isRecording s = true) :
    (startOrStopTranscription s rt none).result =
      Except.ok (StartStopRet.stoppedText s.textTranscribed) ∧
    (recorderOnStop (startOrStopTranscription s rt none).state blob
        (HttpOutcome.response 200 (some t) none)).state.textTranscribed
      = some t := by
  constructor
  · rw [startOrStop_stop_eq s rt none h]
  · rw [startOrStop_stop_eq s rt none h]
    exact processAudioBlob_textTranscribed _ blob t none

theorem c9_stop_returns_previous_text_witness :
    (startOrStopTranscription { mkVoiceInput true "ja" defaultEndpoint
        with recorderState := RecState.recording } false none).result =
      Except.ok (StartStopRet.stoppedText none) :=
  (c9_stop_returns_previous_text
      { mkVoiceInput true "ja" defaultEndpoint
        with recorderState := RecState.recording } false "blob" "hello"
      rfl).1

/-! ## Claim C10 -/

/-- Claim C10: constructed with no output field (the empty-string
default) and used with returnText false, a 200 response makes the
success path invoke the undefined `#resolveTranscription` callback: the
transcribed text is delivered neither to an output field nor to a
promise (no write and no resolve event), and the success branch itself
raises an internal error, surfaced as a generic wrapped error in the
detached flow. -/
theorem c10_dom_mode_without_field :
    domNoFieldScenario.result =
      Except.error (JsError.error "API call error") ∧
    resolveEvents domNoFieldScenario.events = [] ∧
    writeEvents domNoFieldScenario.events = [] := by
  refine ⟨rfl, rfl, rfl⟩

end VoiceInput
